import Mathlib

/-!
Verification of the `get_m3u` extraction service (src/index.py) against its
natural-language specification.

The development shallowly embeds the Python program: JSON / Python values are
an inductive `Json`, fallible Python code returns `Except PyErr`, and the
external world (HTTP response from AniList, browser behaviour, the wall
clock) is an explicit `World` record of oracles.  Machine behaviour is
modelled on `Int`/`Nat`; Python `min` over heterogeneous values raises
`TypeError` exactly as CPython does.
-/

namespace GetM3u

/-- Python exception kinds that the embedded code can raise. -/
inductive PyErr where
  | typeError
  | attributeError
  | keyError
  | valueError
  | webDriverError
deriving DecidableEq, Repr

/-- JSON values as decoded by Python `json` (`null` doubles as Python `None`). -/
inductive Json where
  | null
  | bool (b : Bool)
  | num (n : Int)
  | str (s : String)
  | arr (xs : List Json)
  | obj (fields : List (String × Json))
deriving Repr

/-- Lookup of a key in a decoded JSON object (Python `dict` access order). -/
def getField : List (String × Json) → String → Option Json
  | [], _ => none
  | (k, v) :: rest, key => if k = key then some v else getField rest key

/-- Python truthiness (`bool(x)`) on embedded values. -/
def pyTruthy : Json → Bool
  | .null => false
  | .bool b => b
  | .num n => n != 0
  | .str s => !s.isEmpty
  | .arr xs => !xs.isEmpty
  | .obj fs => !fs.isEmpty

/-- Python `v.get(key, default)`: `AttributeError` unless `v` is a dict. -/
def pyGet (v : Json) (key : String) (dflt : Json) : Except PyErr Json :=
  match v with
  | .obj fs => .ok ((getField fs key).getD dflt)
  | _ => .error .attributeError

/-- Python `v[key]`: `KeyError` when missing, `TypeError` unless `v` is a dict. -/
def pySubscript (v : Json) (key : String) : Except PyErr Json :=
  match v with
  | .obj fs =>
    match getField fs key with
    | some x => .ok x
    | none => .error .keyError
  | _ => .error .typeError

/-- Python `a or b` on embedded values (returns the first truthy operand). -/
def pyOr (a b : Json) : Json := if pyTruthy a then a else b

/-- A value comparable with an `int` by Python `min` (`bool` coerces to 0/1). -/
def jsonToIntCmp : Json → Option Int
  | .num n => some n
  | .bool b => some (if b then 1 else 0)
  | _ => none

/-- Outcome of the `requests.post` call to AniList as seen by the program:
either some exception during transport, or a status code together with the
parsed body (`none` when `.json()` raises). -/
inductive FetchResp where
  | transportError
  | resp (status : Nat) (body : Option Json)

/-- `data.get("data", \x7b\x7d).get("Media", None)` from src/index.py line 80. -/
def mediaOf (data : Json) : Except PyErr Json :=
  match pyGet data "data" (.obj []) with
  | .error e => .error e
  | .ok d => pyGet d "Media" .null

/-- `fetch_anime_details` (src/index.py lines 55-83): every exception inside
the `try` block — transport failure, `raise_for_status` on a 4xx/5xx code,
body parse failure, attribute errors while drilling into the body — is caught
and turned into `None`; otherwise the `Media` value is returned. -/
def fetch_anime_details (r : FetchResp) : Json :=
  match r with
  | .transportError => .null
  | .resp status body =>
    if 400 ≤ status ∧ status < 600 then .null
    else
      match body with
      | none => .null
      | some data =>
        match mediaOf data with
        | .ok v => v
        | .error _ => .null

/-- The hard cap on episodes, the literal `25` at src/index.py line 158. -/
def EPISODE_CAP : Int := 25

/-- `MAX_RUNTIME_SECONDS` (src/index.py line 34). -/
def MAX_RUNTIME_SECONDS : Nat := 600

/-- `min(anime.get("episodes", 12), 25)` (src/index.py line 158).  The
default `12` applies only when the key is missing; a present non-numeric
value (such as JSON `null`) makes Python `min` raise `TypeError`, and a
non-dict `anime` makes `.get` raise `AttributeError`. -/
def total_eps_anilist (anime : Json) : Except PyErr Int :=
  match anime with
  | .obj fs =>
    match jsonToIntCmp ((getField fs "episodes").getD (.num 12)) with
    | some n => .ok (min n EPISODE_CAP)
    | none => .error .typeError
  | _ => .error .attributeError

/-- `get_miruro_episode_count` (src/index.py lines 133-145): `none` stands
for any exception inside the probe (caught, yielding 0), `some n` for the
number of episode buttons found; `count = len(ep_buttons) if ep_buttons
else 0` collapses an empty find to 0 as well. -/
def get_miruro_episode_count (probeResult : Option Nat) : Nat :=
  match probeResult with
  | some n => n
  | none => 0

/-- `total_eps = min(total_eps_anilist, total_eps_miruro or total_eps_anilist)`
(src/index.py line 162): Python `or` takes the probed count when it is
truthy (nonzero) and falls back to the AniList-derived count otherwise. -/
def total_eps (a : Int) (s : Nat) : Int :=
  min a (if s ≠ 0 then (s : Int) else a)

/-! ### The stream-URL patterns and `extract_video_url`

`pattern_m3u8 = https?://[^\s"<>]+\.m3u8` and the analogous `.mp4` pattern
(src/index.py lines 108-109; the excluded character class also contains the
single quote).  `re.search` returns the leftmost match; the greedy `+` with
backtracking means the matched URL extends to the last occurrence of the
suffix inside the maximal run of allowed characters. -/

/-- ASCII whitespace matched by Python `\s` (str patterns also match some
Unicode spaces; page-source URLs are ASCII, so the model stays ASCII). -/
def isPySpace (c : Char) : Bool :=
  c == ' ' || c == Char.ofNat 9 || c == Char.ofNat 10 || c == Char.ofNat 13 ||
  c == Char.ofNat 11 || c == Char.ofNat 12

/-- A character admitted by the class `[^\s"<>]` with the quote characters
(codes 34 and 39) also excluded, exactly the class in the source patterns. -/
def isUrlChar (c : Char) : Bool :=
  !(isPySpace c || c == Char.ofNat 34 || c == Char.ofNat 39 || c == '<' || c == '>')

/-- The literal suffix `.m3u8` of the first pattern. -/
def extM3u8 : List Char := ['.', 'm', '3', 'u', '8']

/-- The literal suffix `.mp4` of the second pattern. -/
def extMp4 : List Char := ['.', 'm', 'p', '4']

/-- Match `https?://` at the head of `l` (greedy: the `s` branch is tried
first); returns the consumed scheme characters and the remainder. -/
def schemeAt (l : List Char) : Option (List Char × List Char) :=
  if "https://".data.isPrefixOf l then some ("https://".data, l.drop 8)
  else if "http://".data.isPrefixOf l then some ("http://".data, l.drop 7)
  else none

/-- Largest `k ≥ 1` such that `ext` occurs in `run` at offset `k` — the
offset a greedy `[^\s"<>]+` backtracks to so that the literal suffix can
match. -/
def greedyStop (ext run : List Char) : Option Nat :=
  (List.range (run.length + 1)).reverse.find?
    (fun k => (k != 0) && ((run.drop k).take ext.length == ext))

/-- Attempt to match `https?://[^\s"<>]+ext` anchored at the head of `l`. -/
def matchUrlAt (ext : List Char) (l : List Char) : Option (List Char) :=
  match schemeAt l with
  | none => none
  | some (pre, rest) =>
    let run := rest.takeWhile isUrlChar
    match greedyStop ext run with
    | none => none
    | some k => some (pre ++ run.take (k + ext.length))

/-- `re.search` of one of the two URL patterns: try every start position
left to right and return the first (leftmost) full match. -/
def searchUrl (ext : List Char) : List Char → Option (List Char)
  | [] => none
  | c :: rest =>
    match matchUrlAt ext (c :: rest) with
    | some m => some m
    | none => searchUrl ext rest

/-- One polling attempt of `extract_video_url` (src/index.py lines 122-127):
search the rendered page for both patterns and, when either matched, return
the m3u8 match if present, otherwise the mp4 match. -/
def scanPage (html : List Char) : Option (List Char) :=
  match searchUrl extM3u8 html, searchUrl extMp4 html with
  | some m, _ => some m
  | none, some m => some m
  | none, none => none

/-- The attempt loop of `extract_video_url`: `remaining` attempts are left
and `i` counts the attempts already made; `pages i` is the page source
rendered when attempt `i` scans (the simulated play gesture and the waits
cannot fail the attempt — their exceptions are swallowed). -/
def extractLoop (pages : Nat → List Char) : Nat → Nat → Option (List Char)
  | 0, _ => none
  | remaining + 1, i =>
    match scanPage (pages i) with
    | some u => some u
    | none => extractLoop pages remaining (i + 1)

/-- `extract_video_url` (src/index.py lines 104-130) with its rendered page
sources supplied as an oracle; `maxAttempts` defaults to 25 at the call
site. -/
def extract_video_url (pages : Nat → List Char) (maxAttempts : Nat) : Option (List Char) :=
  extractLoop pages maxAttempts 0

/-! ### The coordinator `extract_miruro_links` -/

/-- Resource events of one run: the browser handle being created
(`initialize_driver` returning), `driver.quit()` and the removal of the
ephemeral profile directory in the `finally` block. -/
inductive Event where
  | acquireSession
  | quitDriver
  | removeProfile
deriving DecidableEq, Repr

/-- The external world one run interacts with: the AniList response, whether
`webdriver.Chrome` raises, the probe outcome on the episode list, the wall
clock reading (seconds elapsed since `start_time`) at the deadline check
before each episode, whether navigation to an episode raises, and the page
source rendered for each attempt of each episode. -/
structure World where
  fetchResp : FetchResp
  initFails : Bool
  probeResult : Option Nat
  elapsed : Nat → Nat
  navFail : Nat → Bool
  pages : Nat → Nat → List Char

/-- The body of one episode iteration up to the found URL (src/index.py
lines 171-181): a navigation/automation exception is caught and logged, so
the episode simply produces no URL; otherwise `extract_video_url` runs with
its default 25 attempts. -/
def episode_outcome (w : World) (ep : Nat) : Option (List Char) :=
  if w.navFail ep then none else extract_video_url (w.pages ep) 25

/-- `if video_url: results.append(...)` (src/index.py lines 177-178):
an entry is recorded only when the discovered URL is truthy (nonempty). -/
def foundEntry (w : World) (ep : Nat) : Option (Nat × List Char) :=
  match episode_outcome w ep with
  | some u => if u.isEmpty then none else some (ep, u)
  | none => none

/-- The episode loop (src/index.py lines 166-181): before each episode the
global deadline is checked and the loop breaks when the elapsed time
strictly exceeds `MAX_RUNTIME_SECONDS`; otherwise the episode contributes
its entry (if any) and the loop continues. -/
def episodeLoop (w : World) : List Nat → List (Nat × List Char)
  | [] => []
  | ep :: rest =>
    if MAX_RUNTIME_SECONDS < w.elapsed ep then []
    else
      match foundEntry w ep with
      | some p => p :: episodeLoop w rest
      | none => episodeLoop w rest

/-- `range(1, total_eps + 1)`: the episode indices 1, 2, ..., total. -/
def epIndices (total : Int) : List Nat := List.range' 1 total.toNat

/-- The `results` list aggregated by the run for a given effective count. -/
def run_results (w : World) (total : Int) : List (Nat × List Char) :=
  episodeLoop w (epIndices total)

/-- The title expression of the report (src/index.py line 186):
`anime["title"].get("romaji") or anime["title"].get("english") or
f"Anime {anime_id}"`. -/
def compute_title (anime : Json) (animeId : Int) : Except PyErr Json := do
  let t ← pySubscript anime "title"
  let r ← pyGet t "romaji" .null
  let e ← pyGet t "english" .null
  .ok (pyOr r (pyOr e (.str ("Anime " ++ toString animeId))))

/-- The JSON report returned on the normal path (src/index.py lines 184-188). -/
def report_json (animeId : Int) (title : Json) (results : List (Nat × List Char)) : Json :=
  .obj [("anime_id", .num animeId),
        ("title", title),
        ("episodes", .arr (results.map (fun p =>
          .obj [("episode", .num p.1), ("url", .str (String.mk p.2))])))]

/-- The error report of src/index.py line 156. -/
def errorReport : Json := .obj [("error", .str "Could not fetch anime details")]

/-- `extract_miruro_links` (src/index.py lines 148-191), returning the value
produced (or the exception propagated) together with the ordered resource
events.  Control flow mirrors the source: the fetch failure returns the
error report before any driver exists; `min(anime.get("episodes", 12), 25)`
runs before `initialize_driver`, so its exception also precedes any
session; once the driver exists, the `try`/`finally` guarantees
`driver.quit()` and the profile removal on every exit of the body,
including an exception escaping the report construction. -/
def extract_miruro_links (w : World) (animeId : Int) : Except PyErr Json × List Event :=
  let anime := fetch_anime_details w.fetchResp
  if pyTruthy anime = false then
    (.ok errorReport, [])
  else
    match total_eps_anilist anime with
    | .error e => (.error e, [])
    | .ok a =>
      if w.initFails then
        (.error .webDriverError, [])
      else
        let s := get_miruro_episode_count w.probeResult
        let total := total_eps a s
        let results := run_results w total
        let body : Except PyErr Json :=
          match compute_title anime animeId with
          | .error e => .error e
          | .ok t => .ok (report_json animeId t results)
        (body, [.acquireSession, .quitDriver, .removeProfile])

/-! ### The front door `home` -/

/-- Python substring containment `pat in text`. -/
def containsSub (pat : List Char) : List Char → Bool
  | [] => pat.isEmpty
  | c :: rest => if pat.isPrefixOf (c :: rest) then true else containsSub pat rest

/-- Numeric value of a run of ASCII digits. -/
def digitsToNat (l : List Char) : Nat :=
  List.foldl (fun acc c => acc * 10 + (c.toNat - 48)) 0 l

/-- Try to match `/watch/(\d+)` anchored at the head of `l`; the group is
the greedy maximal digit run. -/
def watchAt (l : List Char) : Option Nat :=
  if "/watch/".data.isPrefixOf l then
    let ds := (l.drop 7).takeWhile Char.isDigit
    if ds.isEmpty then none else some (digitsToNat ds)
  else none

/-- `re.search(r"/watch/(\d+)", url)` (src/index.py line 202): leftmost
position where the whole pattern matches, with `int(match.group(1))`. -/
def findWatch : List Char → Option Nat
  | [] => none
  | c :: rest =>
    match watchAt (c :: rest) with
    | some n => some n
    | none => findWatch rest

/-- `str.strip()` of the surrounding whitespace, as `int(...)` performs. -/
def pyStrip (l : List Char) : List Char :=
  ((l.dropWhile isPySpace).reverse.dropWhile isPySpace).reverse

/-- Digits of an `int` literal after the sign: nonempty digit groups that
may be separated by single underscores. -/
def udigitsAux : List Char → Nat → Option Nat
  | [], acc => some acc
  | c :: rest, acc =>
    if c.isDigit then udigitsAux rest (acc * 10 + (c.toNat - 48))
    else if c = '_' then
      match rest with
      | [] => none
      | d :: _ => if d.isDigit then udigitsAux rest acc else none
    else none

/-- Python `int(s)` on an ASCII string: strip whitespace, optional sign,
then underscore-grouped digits; `none` models the `ValueError` branch. -/
def pyParseInt (s : String) : Option Int :=
  match pyStrip s.data with
  | '-' :: d :: ds =>
    if d.isDigit then (udigitsAux (d :: ds) 0).map (fun n => -(n : Int)) else none
  | '+' :: d :: ds =>
    if d.isDigit then (udigitsAux (d :: ds) 0).map (fun n => (n : Int)) else none
  | d :: ds =>
    if d.isDigit then (udigitsAux (d :: ds) 0).map (fun n => (n : Int)) else none
  | [] => none

/-- Python `a or b` on optional request parameters: a present nonempty
string short-circuits, `None` and the empty string fall through. -/
def pyOrStr (a b : Option String) : Option String :=
  match a with
  | some s => if s.isEmpty then b else some s
  | none => b

/-- `request.args.get("anime_id") or request.args.get("id") or
request.args.get("url")` (src/index.py line 197). -/
def getParam (args : String → Option String) : Option String :=
  pyOrStr (args "anime_id") (pyOrStr (args "id") (args "url"))

/-- The welcome body of src/index.py line 199. -/
def welcomeJson : Json :=
  .obj [("message", .str "Welcome! Provide ?anime_id=<id> to get video URLs.")]

/-- `home` (src/index.py lines 194-213): status code and JSON body, or the
exception that escapes to the framework.  `jsonify(data)` carries the
default status 200. -/
def home (w : World) (args : String → Option String) : Except PyErr (Nat × Json) :=
  match getParam args with
  | none => .ok (200, welcomeJson)
  | some s =>
    if s.isEmpty then .ok (200, welcomeJson)
    else if containsSub "miruro.to".data s.data then
      match findWatch s.data with
      | none => .ok (400, .obj [("error", .str "Invalid Miruro URL format")])
      | some n => (extract_miruro_links w (n : Int)).1.map (fun d => (200, d))
    else
      match pyParseInt s with
      | none => .ok (400, .obj [("error", .str "Invalid AniList ID")])
      | some n => (extract_miruro_links w n).1.map (fun d => (200, d))

/-! ### The process-wide extraction lock

`extraction_lock = Lock()` (src/index.py line 52) and `with extraction_lock:`
(line 149) wrapping the whole body of `extract_miruro_links`.  The standard
interleaving semantics of a mutex-wrapped critical section: each request
thread is idle, blocked on the lock, inside the body (between acquiring the
lock and `initialize_driver`, or after `driver.quit()`), inside the body
with the browser session open, or finished. -/

/-- Control point of one request thread with respect to the lock. -/
inductive Phase where
  | idle
  | waiting
  | inBody
  | inSession
  | done
deriving DecidableEq, Repr

/-- Global state: the lock owner (if any) and every thread phase. -/
structure LockState (n : Nat) where
  holder : Option (Fin n)
  phase : Fin n → Phase

/-- Initial state: lock free, all threads idle. -/
def initLock (n : Nat) : LockState n := ⟨none, fun _ => .idle⟩

/-- Pointwise update of one thread phase. -/
def setPhase {n : Nat} (f : Fin n → Phase) (t : Fin n) (p : Phase) : Fin n → Phase :=
  fun u => if u = t then p else f u

/-- One interleaving step.  `acquire` fires only when the lock is free
(line 149); `openSession` is `initialize_driver` (line 159); `closeSession`
is `driver.quit()` in the `finally` (line 190); `release` leaves the `with`
block. -/
inductive LockStep (n : Nat) : LockState n → LockState n → Prop where
  | request (s : LockState n) (t : Fin n) :
      s.phase t = .idle →
      LockStep n s ⟨s.holder, setPhase s.phase t .waiting⟩
  | acquire (s : LockState n) (t : Fin n) :
      s.phase t = .waiting → s.holder = none →
      LockStep n s ⟨some t, setPhase s.phase t .inBody⟩
  | openSession (s : LockState n) (t : Fin n) :
      s.phase t = .inBody → s.holder = some t →
      LockStep n s ⟨s.holder, setPhase s.phase t .inSession⟩
  | closeSession (s : LockState n) (t : Fin n) :
      s.phase t = .inSession → s.holder = some t →
      LockStep n s ⟨s.holder, setPhase s.phase t .inBody⟩
  | release (s : LockState n) (t : Fin n) :
      s.phase t = .inBody → s.holder = some t →
      LockStep n s ⟨none, setPhase s.phase t .done⟩

/-- Reachability from the initial state. -/
inductive LockReach (n : Nat) : LockState n → Prop where
  | init : LockReach n (initLock n)
  | step {s s' : LockState n} : LockReach n s → LockStep n s s' → LockReach n s'

/-- Thread `t` is executing the extraction body (it holds the lock). -/
def inCritical {n : Nat} (s : LockState n) (t : Fin n) : Prop :=
  s.phase t = .inBody ∨ s.phase t = .inSession

/-- Key invariant: whoever is inside the body is the recorded lock holder. -/
def LockInv {n : Nat} (s : LockState n) : Prop :=
  ∀ t : Fin n, inCritical s t → s.holder = some t

/-! ## Theorems -/

/-- Claim C1: for every metadata response carrying an authoritative count
`A` and every site-probed count `s`, the effective episode count computed
before the episode loop (lines 158 and 162 of src/index.py, i.e.
`total_eps (min A 25) s`) equals `min (cap, A, s if s > 0 else A)`, and it
never exceeds the cap 25. -/
theorem claim_c1_effective_count (A : Int) (s : Nat) (fs : List (String × Json))
    (h : getField fs "episodes" = some (.num A)) :
    total_eps_anilist (.obj fs) = .ok (min A EPISODE_CAP) ∧
    total_eps (min A EPISODE_CAP) s =
      min EPISODE_CAP (min A (if 0 < s then (s : Int) else A)) ∧
    total_eps (min A EPISODE_CAP) s ≤ EPISODE_CAP := by
  refine ⟨?_, ?_, ?_⟩
  · simp [total_eps_anilist, h, jsonToIntCmp]
  · simp only [total_eps, EPISODE_CAP]
    split_ifs <;> omega
  · simp only [total_eps, EPISODE_CAP]
    split_ifs <;> omega

/-- Witness for C1: AniList reports 24 episodes, the site probe 12; the
effective count is 12. -/
theorem claim_c1_witness :
    getField [("episodes", Json.num 24)] "episodes" = some (Json.num 24) ∧
    (total_eps_anilist (.obj [("episodes", Json.num 24)]) = .ok (min 24 EPISODE_CAP) ∧
     total_eps (min 24 EPISODE_CAP) 12 =
       min EPISODE_CAP (min 24 (if 0 < (12 : Nat) then ((12 : Nat) : Int) else 24)) ∧
     total_eps (min 24 EPISODE_CAP) 12 ≤ EPISODE_CAP) :=
  ⟨by rfl, claim_c1_effective_count 24 12 [("episodes", Json.num 24)] (by rfl)⟩

/-- A metadata response for an ongoing title: AniList serves
`"episodes": null` (for example for identifier 21); the title block is
present and well-formed. -/
def nullEpisodesWorld : World :=
  { fetchResp := .resp 200 (some (.obj [("data", .obj [("Media",
      .obj [("id", .num 21),
            ("title", .obj [("romaji", .str "ONE PIECE")]),
            ("episodes", .null)])])])),
    initFails := false,
    probeResult := none,
    elapsed := fun _ => 0,
    navFail := fun _ => false,
    pages := fun _ _ => [] }

/-- Claim C2 is violated by the code: when the metadata response carries
`"episodes": null` (a present key, so `dict.get` does not substitute the
default 12), `min(None, 25)` raises `TypeError`; the exception escapes
`extract_miruro_links` before any session exists and propagates out of the
route handler. -/
theorem claim_c2_null_episodes_raises :
    total_eps_anilist (fetch_anime_details nullEpisodesWorld.fetchResp) =
      .error .typeError ∧
    extract_miruro_links nullEpisodesWorld 21 = (.error .typeError, []) ∧
    home nullEpisodesWorld (fun k => if k = "anime_id" then some "21" else none) =
      .error .typeError := by
  refine ⟨by rfl, by rfl, by rfl⟩

/-- Shared helper: a falsy `Media` value makes the run return the error
report at once, before `initialize_driver`, so the event trace is empty. -/
theorem extract_unavailable (w : World) (animeId : Int)
    (h : pyTruthy (fetch_anime_details w.fetchResp) = false) :
    extract_miruro_links w animeId = (.ok errorReport, []) := by
  simp [extract_miruro_links, h]

/-- Claim C7: every unavailability trigger — transport error, 4xx/5xx
status, unparsable body, missing or falsy `Media` — uniformly yields the
`None` metadata value, and then the run returns the error report
immediately with an empty resource trace: no browser session is ever
acquired. -/
theorem claim_c7_metadata_unavailable (w : World) (animeId : Int) :
    fetch_anime_details .transportError = Json.null ∧
    (∀ st body, 400 ≤ st → st < 600 → fetch_anime_details (.resp st body) = Json.null) ∧
    (∀ st, fetch_anime_details (.resp st none) = Json.null) ∧
    (∀ st fs, getField fs "data" = none →
      fetch_anime_details (.resp st (some (.obj fs))) = Json.null) ∧
    (∀ st fs dfs, getField fs "data" = some (.obj dfs) → getField dfs "Media" = none →
      fetch_anime_details (.resp st (some (.obj fs))) = Json.null) ∧
    (pyTruthy (fetch_anime_details w.fetchResp) = false →
      extract_miruro_links w animeId = (.ok errorReport, []) ∧
      Event.acquireSession ∉ (extract_miruro_links w animeId).2) := by
  refine ⟨rfl, ?_, ?_, ?_, ?_, ?_⟩
  · intro st body h1 h2
    simp [fetch_anime_details, h1, h2]
  · intro st
    by_cases hst : 400 ≤ st ∧ st < 600 <;> simp [fetch_anime_details, hst]
  · intro st fs h
    by_cases hst : 400 ≤ st ∧ st < 600 <;>
      simp [fetch_anime_details, hst, mediaOf, pyGet, h, getField]
  · intro st fs dfs h1 h2
    by_cases hst : 400 ≤ st ∧ st < 600 <;>
      simp [fetch_anime_details, hst, mediaOf, pyGet, h1, h2]
  · intro h
    refine ⟨extract_unavailable w animeId h, ?_⟩
    rw [extract_unavailable w animeId h]
    simp

/-- Witness for C7: a transport failure leads to the error report and an
empty event trace. -/
theorem claim_c7_witness :
    (400 ≤ 404 ∧ 404 < 600) ∧
    fetch_anime_details (.resp 404 none) = Json.null ∧
    pyTruthy (fetch_anime_details ({ nullEpisodesWorld with
      fetchResp := .transportError } : World).fetchResp) = false ∧
    (extract_miruro_links ({ nullEpisodesWorld with
        fetchResp := .transportError } : World) 9 = (.ok errorReport, []) ∧
      Event.acquireSession ∉
        (extract_miruro_links ({ nullEpisodesWorld with
          fetchResp := .transportError } : World) 9).2) :=
  ⟨by omega,
   (claim_c7_metadata_unavailable ({ nullEpisodesWorld with
      fetchResp := .transportError } : World) 9).2.2.1 404,
   by rfl,
   (claim_c7_metadata_unavailable ({ nullEpisodesWorld with
      fetchResp := .transportError } : World) 9).2.2.2.2.2 (by rfl)⟩

/-- Claim C6: on every run in which a browser session is acquired — whatever
the world does afterwards: normal completion, deadline stop, or an
exception escaping the body — the event trace records exactly one
`driver.quit()` and exactly one profile removal (and the session itself was
acquired exactly once). -/
theorem claim_c6_release_exactly_once (w : World) (animeId : Int)
    (h : Event.acquireSession ∈ (extract_miruro_links w animeId).2) :
    (extract_miruro_links w animeId).2.count Event.acquireSession = 1 ∧
    (extract_miruro_links w animeId).2.count Event.quitDriver = 1 ∧
    (extract_miruro_links w animeId).2.count Event.removeProfile = 1 := by
  by_cases h1 : pyTruthy (fetch_anime_details w.fetchResp) = false
  · rw [extract_unavailable w animeId h1] at h
    simp at h
  · cases h2 : total_eps_anilist (fetch_anime_details w.fetchResp) with
    | error e =>
      simp [extract_miruro_links, h1, h2] at h
    | ok a =>
      by_cases h3 : w.initFails
      · simp [extract_miruro_links, h1, h2, h3] at h
      · have htr : (extract_miruro_links w animeId).2 =
            [Event.acquireSession, Event.quitDriver, Event.removeProfile] := by
          simp [extract_miruro_links, h1, h2, h3]
        rw [htr]
        refine ⟨rfl, rfl, rfl⟩

/-- A fully healthy world: metadata with two episodes, successful driver
start, failed probe, clock at zero, blank pages. -/
def healthyWorld : World :=
  { fetchResp := .resp 200 (some (.obj [("data", .obj [("Media",
      .obj [("id", .num 5),
            ("title", .obj [("romaji", .str "T")]),
            ("episodes", .num 2)])])])),
    initFails := false,
    probeResult := none,
    elapsed := fun _ => 0,
    navFail := fun _ => false,
    pages := fun _ _ => [] }

/-- Witness for C6: in `healthyWorld` the session is acquired, and release
happens exactly once. -/
theorem claim_c6_witness :
    Event.acquireSession ∈ (extract_miruro_links healthyWorld 5).2 ∧
    ((extract_miruro_links healthyWorld 5).2.count Event.acquireSession = 1 ∧
     (extract_miruro_links healthyWorld 5).2.count Event.quitDriver = 1 ∧
     (extract_miruro_links healthyWorld 5).2.count Event.removeProfile = 1) :=
  ⟨by rw [show (extract_miruro_links healthyWorld 5).2 =
        [Event.acquireSession, Event.quitDriver, Event.removeProfile] from rfl]
      exact List.mem_cons_self _ _,
   claim_c6_release_exactly_once healthyWorld 5
     (by rw [show (extract_miruro_links healthyWorld 5).2 =
          [Event.acquireSession, Event.quitDriver, Event.removeProfile] from rfl]
         exact List.mem_cons_self _ _)⟩

/-- A recorded entry always carries the index of the episode it came from. -/
theorem foundEntry_fst (w : World) (ep : Nat) (p : Nat × List Char)
    (h : foundEntry w ep = some p) : p.1 = ep := by
  unfold foundEntry at h
  cases ho : episode_outcome w ep with
  | none => rw [ho] at h; cases h
  | some u =>
    rw [ho] at h
    by_cases he : u.isEmpty
    · simp [he] at h
    · simp [he] at h
      rw [← h]

/-- While the deadline never fires, the loop is a plain filterMap of the
per-episode outcomes over the episode list. -/
theorem episodeLoop_no_deadline (w : World) :
    ∀ l : List Nat, (∀ ep ∈ l, w.elapsed ep ≤ MAX_RUNTIME_SECONDS) →
      episodeLoop w l = l.filterMap (foundEntry w) := by
  intro l
  induction l with
  | nil => intro _; rfl
  | cons ep rest ih =>
    intro h
    have h1 : ¬ MAX_RUNTIME_SECONDS < w.elapsed ep := by
      have := h ep (List.mem_cons_self ep rest)
      omega
    have h2 := ih (fun e he => h e (List.mem_cons_of_mem _ he))
    simp only [episodeLoop, if_neg h1, List.filterMap_cons, h2]
    cases hf : foundEntry w ep <;> simp

/-- When the deadline fires at episode `ep`, the loop returns exactly the
entries of the episodes before it. -/
theorem episodeLoop_cutoff (w : World) :
    ∀ (l1 : List Nat) (ep : Nat) (l2 : List Nat),
      (∀ e ∈ l1, w.elapsed e ≤ MAX_RUNTIME_SECONDS) →
      MAX_RUNTIME_SECONDS < w.elapsed ep →
      episodeLoop w (l1 ++ ep :: l2) = l1.filterMap (foundEntry w) := by
  intro l1
  induction l1 with
  | nil =>
    intro ep l2 _ hcut
    simp only [List.nil_append, episodeLoop, if_pos hcut, List.filterMap_nil]
  | cons e rest ih =>
    intro ep l2 h hcut
    have h1 : ¬ MAX_RUNTIME_SECONDS < w.elapsed e := by
      have := h e (List.mem_cons_self e rest)
      omega
    have h2 := ih ep l2 (fun x hx => h x (List.mem_cons_of_mem _ hx)) hcut
    simp only [List.cons_append, episodeLoop, if_neg h1, List.filterMap_cons, h2]
    cases hf : foundEntry w e <;> simp [h2]

/-- Claim C3 counterexample: in `deadlineWorld` the global deadline elapses
between episodes 2 and 3 of 5, the run stops — the report lists episodes 1
and 2 only — yet the returned JSON object has no `truncated` key at all, so
no truncated flag is ever set. -/
def deadlineWorld : World :=
  { fetchResp := .resp 200 (some (.obj [("data", .obj [("Media",
      .obj [("id", .num 7),
            ("title", .obj [("romaji", .str "T")]),
            ("episodes", .num 5)])])])),
    initFails := false,
    probeResult := none,
    elapsed := fun ep => if 3 ≤ ep then 601 else 0,
    navFail := fun _ => false,
    pages := fun _ _ => "http://v.cd/e.m3u8".data }

/-- Field projection out of a run result, for stating report-shape facts. -/
def jfield (r : Except PyErr Json) (key : String) : Option Json :=
  match r with
  | .ok (.obj fs) => getField fs key
  | _ => none

/-- Claim C3 counterexample: with the deadline elapsing between episodes 2
and 3 (of effective count 5), the run stops and returns the results for
episodes 1 and 2, but the report carries no `truncated` key whatsoever —
the claimed truncated flag does not exist in any report the code returns. -/
theorem claim_c3_counterexample :
    MAX_RUNTIME_SECONDS < deadlineWorld.elapsed 3 ∧
    deadlineWorld.elapsed 2 ≤ MAX_RUNTIME_SECONDS ∧
    (run_results deadlineWorld 5).map Prod.fst = [1, 2] ∧
    jfield (extract_miruro_links deadlineWorld 7).1 "episodes" =
      some (.arr [.obj [("episode", .num 1), ("url", .str "http://v.cd/e.m3u8")],
                  .obj [("episode", .num 2), ("url", .str "http://v.cd/e.m3u8")]]) ∧
    jfield (extract_miruro_links deadlineWorld 7).1 "truncated" = none := by
  refine ⟨by decide, by decide, by rfl, by rfl, by rfl⟩

/-- Claim C3 (amended): if the global deadline elapses between episode `k`
and `k + 1` of an effective count `total > k`, the run stops iterating and
the report contains exactly the results for episodes `1..k` (an entry for
each of them whose poll discovered a URL) and nothing beyond the truncation
point; the report has no truncated flag. -/
theorem claim_c3_amended (w : World) (total : Int) (k : Nat)
    (hk : (k : Int) < total)
    (h1 : ∀ i, 1 ≤ i → i ≤ k → w.elapsed i ≤ MAX_RUNTIME_SECONDS)
    (h2 : MAX_RUNTIME_SECONDS < w.elapsed (k + 1)) :
    run_results w total = (List.range' 1 k).filterMap (foundEntry w) ∧
    ∀ p ∈ run_results w total, 1 ≤ p.1 ∧ p.1 ≤ k := by
  have htn : k < total.toNat := by omega
  have hsplit : epIndices total =
      List.range' 1 k ++ (k + 1) :: List.range' (k + 2) (total.toNat - k - 1) := by
    unfold epIndices
    obtain ⟨m, hm⟩ : ∃ m, total.toNat = (m + 1) + k := ⟨total.toNat - k - 1, by omega⟩
    rw [hm, ← List.range'_append_1 1 k (m + 1), List.range'_succ]
    have e1 : 1 + k = k + 1 := by omega
    have e2 : m + 1 + k - k - 1 = m := by omega
    rw [e1, e2]
  have hmain : run_results w total = (List.range' 1 k).filterMap (foundEntry w) := by
    unfold run_results
    rw [hsplit]
    refine episodeLoop_cutoff w (List.range' 1 k) (k + 1)
      (List.range' (k + 2) (total.toNat - k - 1)) ?_ h2
    intro e he
    rw [List.mem_range'_1] at he
    exact h1 e he.1 (by omega)
  refine ⟨hmain, ?_⟩
  intro p hp
  rw [hmain] at hp
  rw [List.mem_filterMap] at hp
  obtain ⟨ep, hep, hfe⟩ := hp
  rw [List.mem_range'_1] at hep
  have := foundEntry_fst w ep p hfe
  omega

/-- Witness for C3 (amended): in `deadlineWorld` with effective count 5 the
deadline elapses between episodes 2 and 3, and the report consists of the
entries for episodes 1 and 2. -/
theorem claim_c3_witness :
    ((2 : Int) < 5 ∧ MAX_RUNTIME_SECONDS < deadlineWorld.elapsed 3) ∧
    (run_results deadlineWorld 5 = (List.range' 1 2).filterMap (foundEntry deadlineWorld) ∧
     ∀ p ∈ run_results deadlineWorld 5, 1 ≤ p.1 ∧ p.1 ≤ 2) :=
  ⟨⟨by decide, by decide⟩,
   claim_c3_amended deadlineWorld 5 2 (by decide)
     (fun i h1 h2 => by interval_cases i <;> decide) (by decide)⟩

/-- The episode indices recorded by the loop form a sublist of the episode
list it walked. -/
theorem episodeLoop_fst_sublist (w : World) :
    ∀ l : List Nat, ((episodeLoop w l).map Prod.fst).Sublist l := by
  intro l
  induction l with
  | nil => exact List.Sublist.refl []
  | cons ep rest ih =>
    by_cases h1 : MAX_RUNTIME_SECONDS < w.elapsed ep
    · simp only [episodeLoop, if_pos h1, List.map_nil]
      exact List.nil_sublist _
    · simp only [episodeLoop, if_neg h1]
      cases hf : foundEntry w ep with
      | none => exact (ih).cons ep
      | some p =>
        have hfst := foundEntry_fst w ep p hf
        simp only [List.map_cons, hfst]
        exact ih.cons₂ ep

/-- Claim C4 (amended): in every report the recorded episode indices are
strictly increasing (hence duplicate-free) and lie in `[1, total]` for the
effective count `total` the run used; they need not be gap-free, since an
episode whose poll found no URL leaves no entry. -/
theorem claim_c4_amended (w : World) (total : Int) :
    List.Pairwise (· < ·) ((run_results w total).map Prod.fst) ∧
    ∀ p ∈ run_results w total, 1 ≤ p.1 ∧ (p.1 : Int) ≤ total := by
  have hsub := episodeLoop_fst_sublist w (epIndices total)
  constructor
  · exact List.Pairwise.sublist hsub (List.pairwise_lt_range' 1 total.toNat)
  · intro p hp
    have hmem : p.1 ∈ epIndices total :=
      hsub.subset (List.mem_map_of_mem Prod.fst hp)
    unfold epIndices at hmem
    rw [List.mem_range'_1] at hmem
    omega

/-- A world whose second episode fails to navigate while episodes 1 and 3
succeed: the reported indices are [1, 3]. -/
def gapWorld : World :=
  { fetchResp := .resp 200 (some (.obj [("data", .obj [("Media",
      .obj [("id", .num 9),
            ("title", .obj [("romaji", .str "G")]),
            ("episodes", .num 3)])])])),
    initFails := false,
    probeResult := none,
    elapsed := fun _ => 0,
    navFail := fun ep => ep == 2,
    pages := fun _ _ => "http://v.cd/e.m3u8".data }

/-- Claim C4 counterexample: in `gapWorld` the effective count is 3, the
report records indices [1, 3] — strictly increasing but not gap-free (no
entry for episode 2 although 2 < 3 is within range). -/
theorem claim_c4_counterexample :
    total_eps_anilist (fetch_anime_details gapWorld.fetchResp) = .ok 3 ∧
    total_eps 3 (get_miruro_episode_count gapWorld.probeResult) = 3 ∧
    (run_results gapWorld 3).map Prod.fst = [1, 3] ∧
    ¬ List.Chain' (fun a b => b = a + 1) ((run_results gapWorld 3).map Prod.fst) := by
  refine ⟨by rfl, by rfl, by rfl, ?_⟩
  rw [show (run_results gapWorld 3).map Prod.fst = [1, 3] from rfl]
  intro h
  rw [List.chain'_cons] at h
  exact absurd h.1 (by decide)

/-- Witness for C4 (amended): the gap world report, indices [1, 3], is
strictly increasing and bounded by the effective count 3. -/
theorem claim_c4_witness :
    List.Pairwise (· < ·) ((run_results gapWorld 3).map Prod.fst) ∧
    ((1, "http://v.cd/e.m3u8".data) ∈ run_results gapWorld 3 ∧
     1 ≤ (1 : Nat) ∧ ((1 : Nat) : Int) ≤ 3) :=
  ⟨(claim_c4_amended gapWorld 3).1,
   by
     have hmem : (1, "http://v.cd/e.m3u8".data) ∈ run_results gapWorld 3 := by
       rw [show run_results gapWorld 3 =
         [(1, "http://v.cd/e.m3u8".data), (3, "http://v.cd/e.m3u8".data)] from rfl]
       exact List.mem_cons_self _ _
     exact ⟨hmem, (claim_c4_amended gapWorld 3).2 (1, "http://v.cd/e.m3u8".data) hmem⟩⟩

/-- If no scan within the remaining attempts matches, the loop returns no
URL. -/
theorem extractLoop_none (pages : Nat → List Char) :
    ∀ n i : Nat, (∀ j, j < n → scanPage (pages (i + j)) = none) →
      extractLoop pages n i = none := by
  intro n
  induction n with
  | zero => intro i _; rfl
  | succ m ih =>
    intro i h
    have h0 : scanPage (pages i) = none := by
      have := h 0 (Nat.succ_pos m)
      simpa using this
    have hrest : ∀ j, j < m → scanPage (pages (i + 1 + j)) = none := by
      intro j hj
      have := h (j + 1) (by omega)
      have e : i + (j + 1) = i + 1 + j := by omega
      rw [e] at this
      exact this
    simp only [extractLoop, h0]
    exact ih (i + 1) hrest

/-- If attempt `k` is the first whose scan matches, the loop returns that
match. -/
theorem extractLoop_found (pages : Nat → List Char) :
    ∀ (k n i : Nat) (u : List Char), k < n →
      (∀ j, j < k → scanPage (pages (i + j)) = none) →
      scanPage (pages (i + k)) = some u →
      extractLoop pages n i = some u := by
  intro k
  induction k with
  | zero =>
    intro n i u hk _ hs
    cases n with
    | zero => omega
    | succ m =>
      simp only [Nat.add_zero] at hs
      simp only [extractLoop, hs]
  | succ m ih =>
    intro n i u hk h0 hs
    cases n with
    | zero => omega
    | succ n2 =>
      have hz : scanPage (pages i) = none := by
        have := h0 0 (Nat.succ_pos m)
        simpa using this
      have hrest : ∀ j, j < m → scanPage (pages (i + 1 + j)) = none := by
        intro j hj
        have := h0 (j + 1) (by omega)
        have e : i + (j + 1) = i + 1 + j := by omega
        rw [e] at this
        exact this
      have hs2 : scanPage (pages (i + 1 + m)) = some u := by
        have e : i + (m + 1) = i + 1 + m := by omega
        rw [e] at hs
        exact hs
      simp only [extractLoop, hz]
      exact ih n2 (i + 1) u (by omega) hrest hs2

/-- The loop result only depends on the pages of the attempts it may scan. -/
theorem extractLoop_congr (pages pages2 : Nat → List Char) :
    ∀ n i : Nat, (∀ j, j < n → pages (i + j) = pages2 (i + j)) →
      extractLoop pages n i = extractLoop pages2 n i := by
  intro n
  induction n with
  | zero => intro i _; rfl
  | succ m ih =>
    intro i h
    have h0 : pages i = pages2 i := by
      have := h 0 (Nat.succ_pos m)
      simpa using this
    have hrest : ∀ j, j < m → pages (i + 1 + j) = pages2 (i + 1 + j) := by
      intro j hj
      have := h (j + 1) (by omega)
      have e : i + (j + 1) = i + 1 + j := by omega
      rw [e] at this
      exact this
    simp only [extractLoop, h0]
    cases scanPage (pages2 i) with
    | none => exact ih (i + 1) hrest
    | some u => rfl

/-- Claim C5: for every sequence of rendered page contents the poller scans
at most the fixed maximum of 25 attempts — its result is unchanged by what
any later attempt would render; if no scan within the 25 attempts matches
either pattern, it returns no URL; and on the first scan `k` where a match
of either URL pattern exists it returns the m3u8-format match when one is
present (deterministic tie-break), the mp4-format match otherwise. -/
theorem claim_c5_poller (pages : Nat → List Char) :
    ((∀ i, i < 25 → scanPage (pages i) = none) → extract_video_url pages 25 = none) ∧
    (∀ k, k < 25 → (∀ j, j < k → scanPage (pages j) = none) →
      (∀ m, searchUrl extM3u8 (pages k) = some m →
        extract_video_url pages 25 = some m) ∧
      (searchUrl extM3u8 (pages k) = none →
        ∀ m, searchUrl extMp4 (pages k) = some m →
          extract_video_url pages 25 = some m)) ∧
    (∀ pages2 : Nat → List Char, (∀ i, i < 25 → pages i = pages2 i) →
      extract_video_url pages 25 = extract_video_url pages2 25) := by
  refine ⟨?_, ?_, ?_⟩
  · intro h
    exact extractLoop_none pages 25 0 (fun j hj => by simpa using h j hj)
  · intro k hk hbefore
    constructor
    · intro m hm
      have hscan : scanPage (pages k) = some m := by
        unfold scanPage
        rw [hm]
      exact extractLoop_found pages k 25 0 m hk
        (fun j hj => by simpa using hbefore j hj) (by simpa using hscan)
    · intro hnone m hm
      have hscan : scanPage (pages k) = some m := by
        unfold scanPage
        rw [hnone, hm]
      exact extractLoop_found pages k 25 0 m hk
        (fun j hj => by simpa using hbefore j hj) (by simpa using hscan)
  · intro pages2 h
    exact extractLoop_congr pages pages2 25 0 (fun j hj => by simpa using h j hj)

/-- Pages for the witness run: attempts 0 and 1 render nothing, attempt 2
renders a page holding both an mp4 URL and an m3u8 URL. -/
def witnessPages : Nat → List Char :=
  fun i => if i = 2 then "x https://a.b/v.mp4 y http://c.d/w.m3u8 z".data else []

/-- Witness for C5: on `witnessPages` the first matching scan is attempt 2,
both patterns match there, and the poller returns the m3u8 match. -/
theorem claim_c5_witness :
    scanPage (witnessPages 0) = none ∧
    searchUrl extM3u8 (witnessPages 2) = some "http://c.d/w.m3u8".data ∧
    searchUrl extMp4 (witnessPages 2) = some "https://a.b/v.mp4".data ∧
    extract_video_url witnessPages 25 = some "http://c.d/w.m3u8".data :=
  ⟨by rfl, by rfl, by rfl,
   ((claim_c5_poller witnessPages).2.1 2 (by omega)
      (fun j hj => by interval_cases j <;> rfl)).1
     "http://c.d/w.m3u8".data (by rfl)⟩

/-- Claim C8: the endpoint answers 200 with the welcome message when no
identifier parameter is supplied; 400 with an error body when the input is
a site URL (it mentions the site host) without a `watch/<digits>` path
segment, or a bare input that does not parse as an integer; and otherwise,
whenever the coordinator hands back a report — no matter how many episodes
it contains — the response is that report with status 200. -/
theorem claim_c8_front_door (w : World) (args : String → Option String) :
    (args "anime_id" = none → args "id" = none → args "url" = none →
      home w args = .ok (200, welcomeJson)) ∧
    (∀ s, getParam args = some s → s.isEmpty = false →
      containsSub "miruro.to".data s.data = true → findWatch s.data = none →
      home w args = .ok (400, .obj [("error", .str "Invalid Miruro URL format")])) ∧
    (∀ s, getParam args = some s → s.isEmpty = false →
      containsSub "miruro.to".data s.data = false → pyParseInt s = none →
      home w args = .ok (400, .obj [("error", .str "Invalid AniList ID")])) ∧
    (∀ s n r, getParam args = some s → s.isEmpty = false →
      containsSub "miruro.to".data s.data = true → findWatch s.data = some n →
      (extract_miruro_links w (n : Int)).1 = .ok r →
      home w args = .ok (200, r)) ∧
    (∀ s n r, getParam args = some s → s.isEmpty = false →
      containsSub "miruro.to".data s.data = false → pyParseInt s = some n →
      (extract_miruro_links w n).1 = .ok r →
      home w args = .ok (200, r)) := by
  refine ⟨?_, ?_, ?_, ?_, ?_⟩
  · intro h1 h2 h3
    simp [home, getParam, pyOrStr, h1, h2, h3]
  · intro s hs hempty hcontains hfind
    simp [home, hs, hempty, hcontains, hfind]
  · intro s hs hempty hcontains hparse
    simp [home, hs, hempty, hcontains, hparse]
  · intro s n r hs hempty hcontains hfind hok
    simp [home, hs, hempty, hcontains, hfind, hok, Except.map]
  · intro s n r hs hempty hcontains hparse hok
    simp [home, hs, hempty, hcontains, hparse, hok, Except.map]

/-- Witness for C8: the malformed site URL is rejected with 400, and a bare
numeric identifier in the healthy world yields status 200 with the run
report. -/
theorem claim_c8_witness :
    home healthyWorld (fun k => if k = "url" then some "https://www.miruro.to/nothing" else none) =
      .ok (400, .obj [("error", .str "Invalid Miruro URL format")]) ∧
    home healthyWorld (fun k => if k = "anime_id" then some "5" else none) =
      .ok (200, .obj [("anime_id", .num 5), ("title", .str "T"), ("episodes", .arr [])]) :=
  ⟨(claim_c8_front_door healthyWorld
      (fun k => if k = "url" then some "https://www.miruro.to/nothing" else none)).2.1
      "https://www.miruro.to/nothing" (by rfl) (by rfl) (by rfl) (by rfl),
   (claim_c8_front_door healthyWorld
      (fun k => if k = "anime_id" then some "5" else none)).2.2.2.2
      "5" 5 (.obj [("anime_id", .num 5), ("title", .str "T"), ("episodes", .arr [])])
      (by rfl) (by rfl) (by rfl) (by rfl) (by rfl)⟩

/-- Claim C10: when the metadata lookup is unavailable and the request
carries a well-formed identifier — bare numeric or a site URL with a
`watch/<digits>` segment — the endpoint serializes the error report with
HTTP status 200, not a 4xx or 5xx status. -/
theorem claim_c10_error_report_200 (w : World) (args : String → Option String)
    (hun : pyTruthy (fetch_anime_details w.fetchResp) = false) :
    (∀ s n, getParam args = some s → s.isEmpty = false →
      containsSub "miruro.to".data s.data = false → pyParseInt s = some n →
      home w args = .ok (200, errorReport)) ∧
    (∀ s n, getParam args = some s → s.isEmpty = false →
      containsSub "miruro.to".data s.data = true → findWatch s.data = some n →
      home w args = .ok (200, errorReport)) := by
  constructor
  · intro s n hs hempty hcontains hparse
    have hex : (extract_miruro_links w n).1 = .ok errorReport := by
      rw [extract_unavailable w n hun]
    simp [home, hs, hempty, hcontains, hparse, hex, Except.map]
  · intro s n hs hempty hcontains hfind
    have hex : (extract_miruro_links w (n : Int)).1 = .ok errorReport := by
      rw [extract_unavailable w (n : Int) hun]
    simp [home, hs, hempty, hcontains, hfind, hex, Except.map]

/-- Witness for C10: a transport failure plus the bare identifier 42 gives
the error report with status 200. -/
theorem claim_c10_witness :
    pyTruthy (fetch_anime_details (FetchResp.transportError)) = false ∧
    home ({ healthyWorld with fetchResp := .transportError } : World)
        (fun k => if k = "id" then some "42" else none) =
      .ok (200, errorReport) :=
  ⟨by rfl,
   (claim_c10_error_report_200 ({ healthyWorld with fetchResp := .transportError } : World)
      (fun k => if k = "id" then some "42" else none) (by rfl)).1
     "42" 42 (by rfl) (by rfl) (by rfl) (by rfl)⟩

/-- The invariant holds initially: nobody is in the body. -/
theorem lockInv_init (n : Nat) : LockInv (initLock n) := by
  intro t ht
  cases ht with
  | inl h => exact absurd h (by simp [initLock])
  | inr h => exact absurd h (by simp [initLock])

/-- The invariant is preserved by every step. -/
theorem lockInv_step {n : Nat} {s s2 : LockState n}
    (hinv : LockInv s) (hstep : LockStep n s s2) : LockInv s2 := by
  cases hstep with
  | request t hp =>
    intro u hu
    by_cases hut : u = t
    · subst hut
      rcases hu with h | h <;> simp [setPhase] at h
    · have hu0 : inCritical s u := by
        rcases hu with h | h
        · exact Or.inl (by simpa [setPhase, hut] using h)
        · exact Or.inr (by simpa [setPhase, hut] using h)
      exact hinv u hu0
  | acquire t hp hfree =>
    intro u hu
    by_cases hut : u = t
    · subst hut; rfl
    · have hu0 : inCritical s u := by
        rcases hu with h | h
        · exact Or.inl (by simpa [setPhase, hut] using h)
        · exact Or.inr (by simpa [setPhase, hut] using h)
      have := hinv u hu0
      rw [hfree] at this
      cases this
  | openSession t hp hold =>
    intro u hu
    by_cases hut : u = t
    · subst hut; exact hold
    · have hu0 : inCritical s u := by
        rcases hu with h | h
        · exact Or.inl (by simpa [setPhase, hut] using h)
        · exact Or.inr (by simpa [setPhase, hut] using h)
      exact hinv u hu0
  | closeSession t hp hold =>
    intro u hu
    by_cases hut : u = t
    · subst hut; exact hold
    · have hu0 : inCritical s u := by
        rcases hu with h | h
        · exact Or.inl (by simpa [setPhase, hut] using h)
        · exact Or.inr (by simpa [setPhase, hut] using h)
      exact hinv u hu0
  | release t hp hold =>
    intro u hu
    by_cases hut : u = t
    · subst hut
      rcases hu with h | h <;> simp [setPhase] at h
    · have hu0 : inCritical s u := by
        rcases hu with h | h
        · exact Or.inl (by simpa [setPhase, hut] using h)
        · exact Or.inr (by simpa [setPhase, hut] using h)
      have h1 := hinv u hu0
      rw [hold] at h1
      cases h1
      exact absurd rfl hut

/-- The invariant holds in every reachable state. -/
theorem lockInv_reach {n : Nat} {s : LockState n} (h : LockReach n s) : LockInv s := by
  induction h with
  | init => exact lockInv_init n
  | step _ hstep ih => exact lockInv_step ih hstep

/-- Claim C9: in every reachable state of the lock protocol, at most one
thread is inside the extraction body (concurrent requests are queued in
`waiting`), and in particular at most one thread has a browser session
open. -/
theorem claim_c9_mutual_exclusion (n : Nat) (s : LockState n) (h : LockReach n s) :
    (∀ t u : Fin n, inCritical s t → inCritical s u → t = u) ∧
    (∀ t u : Fin n, s.phase t = .inSession → s.phase u = .inSession → t = u) := by
  have hinv := lockInv_reach h
  have hmain : ∀ t u : Fin n, inCritical s t → inCritical s u → t = u := by
    intro t u ht hu
    have h1 := hinv t ht
    have h2 := hinv u hu
    rw [h1] at h2
    exact Option.some_inj.mp h2
  exact ⟨hmain, fun t u ht hu => hmain t u (Or.inr ht) (Or.inr hu)⟩

/-- A concrete reachable state for the witness: thread 0 requested,
acquired the lock and is inside the body. -/
def busyState : LockState 2 :=
  ⟨some 0, setPhase (setPhase (initLock 2).phase 0 .waiting) 0 .inBody⟩

/-- `busyState` is reached by a request step followed by an acquire step. -/
theorem busyState_reach : LockReach 2 busyState := by
  have h1 : LockStep 2 (initLock 2)
      ⟨(initLock 2).holder, setPhase (initLock 2).phase 0 .waiting⟩ :=
    LockStep.request (initLock 2) 0 rfl
  have h2 : LockStep 2
      ⟨(initLock 2).holder, setPhase (initLock 2).phase 0 .waiting⟩ busyState :=
    LockStep.acquire ⟨(initLock 2).holder, setPhase (initLock 2).phase 0 .waiting⟩ 0
      (by simp [setPhase]) rfl
  exact LockReach.step (LockReach.step LockReach.init h1) h2

/-- Witness for C9: in the reachable state `busyState`, thread 0 is in the
critical section and mutual exclusion is instantiated there. -/
theorem claim_c9_witness :
    inCritical busyState 0 ∧ (0 : Fin 2) = 0 :=
  ⟨Or.inl (by simp [busyState, setPhase]),
   (claim_c9_mutual_exclusion 2 busyState busyState_reach).1 0 0
     (Or.inl (by simp [busyState, setPhase]))
     (Or.inl (by simp [busyState, setPhase]))⟩

end GetM3u
